import Mathlib

/-!
Shallow embedding of the AetherNet core (zoom targeting, swarm controller,
AI feedback loop) and verification of its specification claims.

Numeric values are modelled as rationals; Python dictionaries with optional
keys are modelled as structures with `Option` fields, `get(k, default)`
becoming `Option.getD`.  Python's stable `sorted` is modelled by
`List.mergeSort`, which is stable.  Print side effects are modelled as an
explicit list of emitted log lines.
-/

namespace AetherNet

/-- Rounding a rational to `3` decimal places, as `round(x, 3)` does. -/
def round3 (q : ℚ) : ℚ := (round (q * 1000) : ℤ) / 1000

/-- Rounding a rational to `1` decimal place, as `round(x, 1)` does. -/
def round1 (q : ℚ) : ℚ := (round (q * 10) : ℤ) / 10

/-- Python float modulus `x % y` (sign follows the divisor) on rationals. -/
def fmod (x y : ℚ) : ℚ := x - y * ⌊x / y⌋

/-- A zone reading (`sensor_data` dictionary in `aethernet_zoom_targeting.py`):
five sensor features plus optional wind fields; a missing key is `none`. -/
structure SensorData where
  CAPE : Option ℚ := none
  vorticity : Option ℚ := none
  humidity : Option ℚ := none
  vertical_velocity : Option ℚ := none
  anomaly_score : Option ℚ := none
  wind_direction : Option ℚ := none
  wind_shear : Option ℚ := none
  deriving Repr, DecidableEq

/-- `calculate_risk_score` from `aethernet_zoom_targeting.py`: weighted sum of
each raw value divided by its normalization cap and clamped above at 1,
rounded to 3 decimals.  Missing features default to `0.0`. -/
def calculate_risk_score (sensor_data : SensorData) : ℚ :=
  round3 (
    (25/100) * min (sensor_data.CAPE.getD 0 / 4000) 1 +
    (25/100) * min (sensor_data.vorticity.getD 0 / (15/10000)) 1 +
    (15/100) * min (sensor_data.humidity.getD 0 / 1) 1 +
    (15/100) * min (sensor_data.vertical_velocity.getD 0 / 3) 1 +
    (20/100) * min (sensor_data.anomaly_score.getD 0 / 1) 1)

/-- `prioritize_targets`: score every reading, sort stably by score
descending (Python's `sorted` with `reverse=True` is stable), take `top_n`. -/
def prioritize_targets (grid_data : List SensorData) (top_n : ℕ) :
    List (SensorData × ℚ) :=
  ((grid_data.map fun data => (data, calculate_risk_score data)).mergeSort
    fun a b => decide (b.2 ≤ a.2)).take top_n

/-- `should_zoom`: score at or above the threshold. -/
def should_zoom (sensor_data : SensorData) (score_threshold : ℚ := 65/100) :
    Bool :=
  score_threshold ≤ calculate_risk_score sensor_data

/-- `heading_from_wind_dir`: heading derived from the wind-from direction
(0 = North, clockwise positive); `upwind` is the identity on the normalized
direction, `downwind` adds 180, and every other mode — the `crosswind`
default included — adds 90, all modulo 360. -/
def heading_from_wind_dir (wind_from_deg : ℚ)
    (mode : String := "crosswind") : ℚ :=
  let w := fmod (wind_from_deg + 360) 360
  if mode = "upwind" then w
  else if mode = "downwind" then fmod (w + 180) 360
  else fmod (w + 90) 360

/-- A geometry recommendation as returned by `suggest_geometry`. -/
structure Geometry where
  desired_heading_deg : Option ℚ
  formation_yaw_offset_deg : ℚ
  bank_deg : ℚ
  angle_of_attack_deg : ℚ
  alignment_mode : String
  deriving Repr, DecidableEq

/-- `suggest_geometry` from `aethernet_zoom_targeting.py`: heading from the
wind direction when present (else absent), yaw and bank heuristics from
shear and vorticity, all numeric outputs rounded to 1 decimal, and the mode
argument stored in `alignment_mode`. -/
def suggest_geometry (sensor_data : SensorData)
    (mode : String := "crosswind") (default_yaw_deg : ℚ := 10)
    (bank_deg : ℚ := 5) (aoa_deg : ℚ := 2) : Geometry :=
  let desired_heading := sensor_data.wind_direction.map
    fun w => heading_from_wind_dir w mode
  let shear := sensor_data.wind_shear.getD 0
  let vort := sensor_data.vorticity.getD 0
  let yaw := default_yaw_deg + min (shear / 5) 10
  let bank := bank_deg + min (vort * 500) 3
  { desired_heading_deg := desired_heading.map round1
    formation_yaw_offset_deg := round1 yaw
    bank_deg := round1 bank
    angle_of_attack_deg := round1 aoa_deg
    alignment_mode := mode }

/-! ### `aethernet_swarm_controller.py` -/

/-- A drone record (`drone` dictionary in `aethernet_swarm_controller.py`):
`battery` and `status` keys may be absent. -/
structure Drone where
  id : String
  battery : Option ℚ := none
  status : Option String := none
  deriving Repr, DecidableEq

/-- The `formation` block of a cluster record. -/
structure Formation where
  yaw_offset_deg : ℚ
  axis : String
  deriving Repr, DecidableEq

/-- A cluster record as built by `form_cluster`. -/
structure Cluster where
  id : String
  members : List Drone
  mode : String
  status : String
  formation : Formation
  deriving Repr, DecidableEq

/-- `form_cluster` from `aethernet_swarm_controller.py`. -/
def form_cluster (cluster_id : String) (drone_list : List Drone) : Cluster :=
  { id := cluster_id
    members := drone_list
    mode := if 4 ≤ drone_list.length then "mesh" else "scan"
    status := "active"
    formation := { yaw_offset_deg := 0, axis := "crosswind" } }

/-- The `[WARN]` line printed by `reassign_after_failure` when members were
lost. -/
def lost_members_warning (cluster_id : String) (lost : ℕ) : String :=
  "[WARN] Cluster " ++ cluster_id ++ " lost " ++ toString lost ++
    " member(s)."

/-- `reassign_after_failure`: drop members whose `status` (defaulting to
`"ok"`) equals `"failed"`, recompute the mode from the surviving count, and
print a warning when at least one member was removed.  The returned pair is
the updated cluster together with the printed log lines. -/
def reassign_after_failure (cluster : Cluster) : Cluster × List String :=
  let survivors :=
    cluster.members.filter fun d => d.status.getD "ok" != "failed"
  let log :=
    if survivors.length ≠ cluster.members.length then
      [lost_members_warning cluster.id
        (cluster.members.length - survivors.length)]
    else []
  ({ cluster with
      members := survivors
      mode := if 4 ≤ survivors.length then "mesh" else "scan" }, log)

/-- `recommend_rotation_schedule`: stable ascending sort by battery, a
missing battery defaulting to `100`. -/
def recommend_rotation_schedule (drones : List Drone) : List Drone :=
  drones.mergeSort fun a b =>
    decide (a.battery.getD 100 ≤ b.battery.getD 100)

/-! ### `aethernet_ai_feedback_loop.py` -/

/-- The optional `angle_meta` metadata block of a record. -/
structure AngleMeta where
  heading_deg : Option ℚ := none
  bank_deg : Option ℚ := none
  angle_of_attack_deg : Option ℚ := none
  formation_yaw_offset_deg : Option ℚ := none
  alignment_mode : Option String := none
  deriving Repr, DecidableEq

/-- A training / inference record for `AetherNetAI` (a Python dictionary;
missing keys are `none`). -/
structure Entry where
  CAPE : Option ℚ := none
  vorticity : Option ℚ := none
  humidity : Option ℚ := none
  vertical_velocity : Option ℚ := none
  anomaly_score : Option ℚ := none
  heading_deg : Option ℚ := none
  bank_deg : Option ℚ := none
  angle_of_attack_deg : Option ℚ := none
  formation_yaw_offset_deg : Option ℚ := none
  alignment_mode : Option String := none
  angle_meta : Option AngleMeta := none
  storm_formed : Option ℤ := none
  deriving Repr, DecidableEq

/-- `ALIGNMENT_MODES` from `aethernet_ai_feedback_loop.py`. -/
def ALIGNMENT_MODES : List String := ["upwind", "downwind", "crosswind", "none"]

/-- `_extract_angle_features`: normalized angle feature 7-tuple.  Each angle
is taken from the record itself, falling back to the `angle_meta` block;
`x or default` Python idioms become `Option.getD` (with the empty string
also falsy for the alignment mode). -/
def _extract_angle_features (entry : Entry) :
    ℚ × ℚ × ℚ × ℚ × ℚ × ℚ × ℚ :=
  let meta := entry.angle_meta.getD {}
  let heading := entry.heading_deg.orElse fun _ => meta.heading_deg
  let bank := entry.bank_deg.orElse fun _ => meta.bank_deg
  let aoa := entry.angle_of_attack_deg.orElse fun _ =>
    meta.angle_of_attack_deg
  let yaw := entry.formation_yaw_offset_deg.orElse fun _ =>
    meta.formation_yaw_offset_deg
  let align0 :=
    (entry.alignment_mode.orElse fun _ => meta.alignment_mode).getD "none"
  let align1 := (if align0 = "" then "none" else align0).toLower
  let heading_norm : ℚ :=
    match heading with
    | some h => fmod h 360 / 360
    | none => 0
  let bank_norm : ℚ := min (|bank.getD 0| / 30) 1
  let aoa_norm : ℚ := min (|aoa.getD 0| / 15) 1
  let yaw_norm : ℚ := min (|yaw.getD 0| / 180) 1
  let align := if align1 ∈ ALIGNMENT_MODES then align1 else "none"
  let up : ℚ := if align = "upwind" then 1 else 0
  let down : ℚ := if align = "downwind" then 1 else 0
  let cross : ℚ := if align = "crosswind" then 1 else 0
  (heading_norm, bank_norm, aoa_norm, yaw_norm, up, down, cross)

/-- The classifier state of an `AetherNetAI` instance: the fitted model (of
opaque, sklearn-provided type `M`) and the `is_trained` flag. -/
structure AetherNetAI (M : Type) where
  model : M
  is_trained : Bool
  deriving Repr, DecidableEq

/-- The feature row built for one record inside `AetherNetAI.preprocess`:
the five sensor features (defaulting to `0.0`) followed by the seven angle
features. -/
def preprocess_row (entry : Entry) : List ℚ :=
  [entry.CAPE.getD 0,
    entry.vorticity.getD 0,
    entry.humidity.getD 0,
    entry.vertical_velocity.getD 0,
    entry.anomaly_score.getD 0] ++
  (let (a, b, c, d, u, v, w) := _extract_angle_features entry
   [a, b, c, d, u, v, w])

/-- `AetherNetAI.preprocess`: features and binary labels
(`storm_formed`, defaulting to `0`) for a dataset. -/
def preprocess (dataset : List Entry) : List (List ℚ) × List ℤ :=
  (dataset.map preprocess_row,
   dataset.map fun entry => entry.storm_formed.getD 0)

/-- The warning printed by `AetherNetAI.train` when the labels lack class
diversity. -/
def diversity_warning : String :=
  "[AI] Warning: dataset lacks class diversity (simulation). Skipping train."

/-- `AetherNetAI.train`.  The sklearn calls (`train_test_split`,
`RandomForestClassifier.fit`, validation accuracy) are abstracted into the
opaque parameter `fit` mapping the preprocessed features and labels to a
fitted model.  If the labels have fewer than two distinct values
(`len(set(y)) < 2`) the state is returned unchanged together with a
warning; otherwise the model is replaced by the fitted one and `is_trained`
is set.  The second component of the result collects the printed lines. -/
def AetherNetAI.train {M : Type} (fit : List (List ℚ) → List ℤ → M)
    (ai : AetherNetAI M) (dataset : List Entry) :
    AetherNetAI M × List String :=
  let Xy := preprocess dataset
  if Xy.2.dedup.length < 2 then
    (ai, [diversity_warning])
  else
    ({ model := fit Xy.1 Xy.2, is_trained := true },
      ["[AI] Conceptual training complete. (illustrative only)"])

/-- `AetherNetAI._vectorize_scan`: the single feature row built at inference
time. -/
def AetherNetAI._vectorize_scan (current_scan : Entry) : List ℚ :=
  [current_scan.CAPE.getD 0,
    current_scan.vorticity.getD 0,
    current_scan.humidity.getD 0,
    current_scan.vertical_velocity.getD 0,
    current_scan.anomaly_score.getD 0] ++
  (let (a, b, c, d, u, v, w) := _extract_angle_features current_scan
   [a, b, c, d, u, v, w])

/-- The notice printed when `predict_next_focus` uses the untrained
fallback rule. -/
def fallback_notice : String :=
  "[AI] Notice: Model not trained. Defaulting to rule-based fallback (conceptual)."

/-- `AetherNetAI.predict_next_focus`: untrained instances apply the fixed
rule `CAPE > 1500 and vorticity > 0.0005` (missing features default to `0`)
and print a notice; trained instances return the model's class prediction
(the opaque parameter `predict` standing for sklearn's `model.predict`) on
the vectorized scan. -/
def AetherNetAI.predict_next_focus {M : Type}
    (predict : M → List ℚ → Bool) (ai : AetherNetAI M)
    (current_scan : Entry) : Bool × List String :=
  if !ai.is_trained then
    ((decide (1500 < current_scan.CAPE.getD 0) &&
        decide (1/2000 < current_scan.vorticity.getD 0)),
      [fallback_notice])
  else
    (predict ai.model (AetherNetAI._vectorize_scan current_scan), [])

/-- `AetherNetAI.retrain_on_outcome`: on failure (`success = false`) it
calls `train` on the dataset; on success it only prints. -/
def AetherNetAI.retrain_on_outcome {M : Type}
    (fit : List (List ℚ) → List ℤ → M) (ai : AetherNetAI M)
    (original_dataset : List Entry) (success : Bool) :
    AetherNetAI M × List String :=
  if !success then
    let r := AetherNetAI.train fit ai original_dataset
    (r.1,
      "[AI] Outcome mismatch (simulation): reinforcing edge-case patterns."
        :: r.2)
  else
    (ai,
      ["[AI] Outcome match (simulation): maintaining current model state."])

lemma round3_zero : round3 0 = 0 := by
  simp [round3]

lemma round_q_mono {x y : ℚ} (h : x ≤ y) : round x ≤ round y := by
  rw [round_eq, round_eq]
  exact Int.floor_le_floor (by linarith)

lemma round3_one : round3 1 = 1 := by
  have h : round ((1 : ℚ) * 1000) = 1000 := by
    rw [one_mul, show ((1000 : ℚ)) = ((1000 : ℤ) : ℚ) by norm_num,
      round_intCast]
  rw [round3, h]
  norm_num

lemma round3_nonneg {q : ℚ} (h : 0 ≤ q) : 0 ≤ round3 q := by
  have h1 : (0 : ℤ) ≤ round (q * 1000) := by
    have := round_q_mono (show (0 : ℚ) ≤ q * 1000 by nlinarith)
    simpa using this
  unfold round3
  positivity

lemma round3_le_one {q : ℚ} (h : q ≤ 1) : round3 q ≤ 1 := by
  have h1 : round (q * 1000) ≤ round ((1 : ℚ) * 1000) :=
    round_q_mono (by nlinarith)
  have h2 : round ((1 : ℚ) * 1000) = 1000 := by
    rw [one_mul, show ((1000 : ℚ)) = ((1000 : ℤ) : ℚ) by norm_num,
      round_intCast]
  rw [round3, div_le_one (by norm_num)]
  exact_mod_cast h1.trans_eq h2

lemma term_nonneg {v cap : ℚ} (hv : 0 ≤ v) (hc : 0 < cap) :
    0 ≤ min (v / cap) 1 := by
  apply le_min (by positivity) (by norm_num)

lemma term_le_one (v cap : ℚ) : min (v / cap) 1 ≤ 1 := min_le_right _ _

/-- **C1.** For every zone reading whose five sensor features are all
non-negative, `calculate_risk_score` is in `[0,1]`; all five features zero or
absent gives exactly `0`; every feature at or above its cap
(`4000, 0.0015, 1.0, 3.0, 1.0`) gives exactly `1`; and the result is always
the weighted sum (weights `0.25, 0.25, 0.15, 0.15, 0.20`) of each raw value
divided by its cap and clamped above at `1` (no floor clamp), rounded to 3
decimals. -/
theorem C1_risk_score_bounds (d : SensorData)
    (h1 : 0 ≤ d.CAPE.getD 0) (h2 : 0 ≤ d.vorticity.getD 0)
    (h3 : 0 ≤ d.humidity.getD 0) (h4 : 0 ≤ d.vertical_velocity.getD 0)
    (h5 : 0 ≤ d.anomaly_score.getD 0) :
    (0 ≤ calculate_risk_score d ∧ calculate_risk_score d ≤ 1) ∧
    (d.CAPE.getD 0 = 0 ∧ d.vorticity.getD 0 = 0 ∧ d.humidity.getD 0 = 0 ∧
      d.vertical_velocity.getD 0 = 0 ∧ d.anomaly_score.getD 0 = 0 →
      calculate_risk_score d = 0) ∧
    (4000 ≤ d.CAPE.getD 0 ∧ 15/10000 ≤ d.vorticity.getD 0 ∧
      1 ≤ d.humidity.getD 0 ∧ 3 ≤ d.vertical_velocity.getD 0 ∧
      1 ≤ d.anomaly_score.getD 0 →
      calculate_risk_score d = 1) ∧
    calculate_risk_score d =
      round3 (
        (25/100) * min (d.CAPE.getD 0 / 4000) 1 +
        (25/100) * min (d.vorticity.getD 0 / (15/10000)) 1 +
        (15/100) * min (d.humidity.getD 0 / 1) 1 +
        (15/100) * min (d.vertical_velocity.getD 0 / 3) 1 +
        (20/100) * min (d.anomaly_score.getD 0 / 1) 1) := by
  refine ⟨⟨?_, ?_⟩, ?_, ?_, rfl⟩
  · apply round3_nonneg
    have t1 := term_nonneg h1 (show (0:ℚ) < 4000 by norm_num)
    have t2 := term_nonneg h2 (show (0:ℚ) < 15/10000 by norm_num)
    have t3 := term_nonneg h3 (show (0:ℚ) < 1 by norm_num)
    have t4 := term_nonneg h4 (show (0:ℚ) < 3 by norm_num)
    have t5 := term_nonneg h5 (show (0:ℚ) < 1 by norm_num)
    nlinarith
  · apply round3_le_one
    have t1 := term_le_one (d.CAPE.getD 0) 4000
    have t2 := term_le_one (d.vorticity.getD 0) (15/10000)
    have t3 := term_le_one (d.humidity.getD 0) 1
    have t4 := term_le_one (d.vertical_velocity.getD 0) 3
    have t5 := term_le_one (d.anomaly_score.getD 0) 1
    nlinarith
  · rintro ⟨z1, z2, z3, z4, z5⟩
    rw [calculate_risk_score, z1, z2, z3, z4, z5]
    norm_num [round3_zero]
  · rintro ⟨c1, c2, c3, c4, c5⟩
    have m1 : min (d.CAPE.getD 0 / 4000) 1 = 1 :=
      min_eq_right ((le_div_iff₀ (by norm_num)).mpr (by linarith))
    have m2 : min (d.vorticity.getD 0 / (15/10000)) 1 = 1 :=
      min_eq_right ((le_div_iff₀ (by norm_num)).mpr (by linarith))
    have m3 : min (d.humidity.getD 0 / 1) 1 = 1 :=
      min_eq_right ((le_div_iff₀ (by norm_num)).mpr (by linarith))
    have m4 : min (d.vertical_velocity.getD 0 / 3) 1 = 1 :=
      min_eq_right ((le_div_iff₀ (by norm_num)).mpr (by linarith))
    have m5 : min (d.anomaly_score.getD 0 / 1) 1 = 1 :=
      min_eq_right ((le_div_iff₀ (by norm_num)).mpr (by linarith))
    rw [calculate_risk_score, m1, m2, m3, m4, m5]
    norm_num [round3_one]

/-- Witness for C1: the theorem applied to the reading with all five features
at their caps. -/
theorem C1_risk_score_bounds_witness :
    calculate_risk_score
      { CAPE := some 4000, vorticity := some (15/10000), humidity := some 1,
        vertical_velocity := some 3, anomaly_score := some 1 } = 1 :=
  (C1_risk_score_bounds _ (by norm_num) (by norm_num) (by norm_num)
    (by norm_num) (by norm_num)).2.2.1
    (by norm_num)

/-! ### Stability of `List.mergeSort` (shared helper lemmas) -/

section SortLemmas

variable {α : Type} (le : α → α → Bool)

/-- A stable sort leaves the subsequence of mutually tied elements exactly
where it was: filtering by a predicate whose elements are pairwise `le`-tied
commutes with `mergeSort`. -/
lemma filter_mergeSort_of_tied (xs : List α) (p : α → Bool)
    (htrans : ∀ (a b c : α), le a b → le b c → le a c)
    (htotal : ∀ (a b : α), le a b || le b a)
    (htied : ∀ a b, p a = true → p b = true → le a b = true) :
    (xs.mergeSort le).filter p = xs.filter p := by
  have hall : ∀ a ∈ xs.filter p, p a = true := fun a ha =>
    (List.mem_filter.mp ha).2
  have hc : (xs.filter p).Pairwise (le · ·) :=
    List.pairwise_of_forall_mem_list fun a ha b hb =>
      htied a b (hall a ha) (hall b hb)
  have h1 : List.Sublist (xs.filter p) (xs.mergeSort le) :=
    List.sublist_mergeSort htrans htotal hc (List.filter_sublist xs)
  have h2 : List.Perm ((xs.mergeSort le).filter p) (xs.filter p) :=
    (List.mergeSort_perm xs le).filter p
  have h3 : List.Sublist (xs.filter p) ((xs.mergeSort le).filter p) := by
    have := h1.filter p
    rwa [List.filter_eq_self.mpr hall] at this
  exact (h3.eq_of_length h2.length_eq.symm).symm

/-- Filtering a prefix (`take`) yields a prefix of the filtered list. -/
lemma filter_take_prefix (p : α → Bool) (l : List α) (n : ℕ) :
    (l.take n).filter p <+: l.filter p := by
  conv_rhs => rw [← List.take_append_drop n l, List.filter_append]
  exact List.prefix_append _ _

end SortLemmas

/-- **C2.** `prioritize_targets` returns exactly
`min top_n (length grid_data)` pairs `(reading, score)`, where every returned
pair carries the risk score of its reading, ordered non-increasingly by
score, and pairs with equal scores keep the original relative order of their
readings (stability of the sort). -/
theorem C2_prioritize_targets (grid_data : List SensorData) (top_n : ℕ) :
    (prioritize_targets grid_data top_n).length =
      min top_n grid_data.length ∧
    (∀ x ∈ prioritize_targets grid_data top_n,
      x.2 = calculate_risk_score x.1) ∧
    (prioritize_targets grid_data top_n).Pairwise
      (fun a b => b.2 ≤ a.2) ∧
    ∀ q : ℚ,
      ((prioritize_targets grid_data top_n).filter
        fun x => decide (x.2 = q)) <+:
      ((grid_data.map fun data => (data, calculate_risk_score data)).filter
        fun x => decide (x.2 = q)) := by
  have htrans : ∀ (a b c : SensorData × ℚ),
      (decide (b.2 ≤ a.2)) → (decide (c.2 ≤ b.2)) → (decide (c.2 ≤ a.2)) := by
    intro a b c h1 h2
    simp only [decide_eq_true_eq] at *
    exact h2.trans h1
  have htotal : ∀ (a b : SensorData × ℚ),
      (decide (b.2 ≤ a.2)) || (decide (a.2 ≤ b.2)) := by
    intro a b
    rcases le_total b.2 a.2 with h | h <;> simp [h]
  refine ⟨?_, ?_, ?_, ?_⟩
  · simp [prioritize_targets]
  · intro x hx
    have hx' : x ∈ (grid_data.map fun data =>
        (data, calculate_risk_score data)).mergeSort
          fun a b => decide (b.2 ≤ a.2) :=
      List.mem_of_mem_take hx
    rw [List.mem_mergeSort] at hx'
    obtain ⟨d, -, rfl⟩ := List.mem_map.mp hx'
    rfl
  · have hs := List.sorted_mergeSort htrans htotal
      (grid_data.map fun data => (data, calculate_risk_score data))
    have hp := hs.sublist (List.take_sublist top_n _)
    exact hp.imp fun h => of_decide_eq_true h
  · intro q
    have heq := filter_mergeSort_of_tied (fun a b => decide (b.2 ≤ a.2))
      (grid_data.map fun data => (data, calculate_risk_score data))
      (fun x => decide (x.2 = q)) htrans htotal
      (by
        intro a b ha hb
        simp only [decide_eq_true_eq] at *
        rw [ha, hb])
    have hpre := filter_take_prefix (α := SensorData × ℚ)
      (fun x => decide (x.2 = q))
      ((grid_data.map fun data =>
        (data, calculate_risk_score data)).mergeSort
          fun a b => decide (b.2 ≤ a.2)) top_n
    rw [heq] at hpre
    exact hpre

/-- **C3.** The `mode` of a cluster returned by `form_cluster` or by
`reassign_after_failure` is `"mesh"` exactly when its member list has at
least 4 entries, and `"scan"` otherwise. -/
theorem C3_mode_invariant (cluster_id : String) (drone_list : List Drone)
    (cluster : Cluster) :
    ((form_cluster cluster_id drone_list).mode = "mesh" ↔
      4 ≤ (form_cluster cluster_id drone_list).members.length) ∧
    ((form_cluster cluster_id drone_list).mode = "scan" ↔
      (form_cluster cluster_id drone_list).members.length < 4) ∧
    ((reassign_after_failure cluster).1.mode = "mesh" ↔
      4 ≤ (reassign_after_failure cluster).1.members.length) ∧
    ((reassign_after_failure cluster).1.mode = "scan" ↔
      (reassign_after_failure cluster).1.members.length < 4) := by
  have hms : ("mesh" : String) ≠ "scan" := by decide
  refine ⟨?_, ?_, ?_, ?_⟩
  · simp only [form_cluster]
    split <;> rename_i h <;> simp [h]
  · simp only [form_cluster]
    split <;> rename_i h <;> simp [h, hms]
    omega
  · simp only [reassign_after_failure]
    split <;> rename_i h <;> simp [h]
  · simp only [reassign_after_failure]
    split <;> rename_i h <;> simp [h, hms]
    omega

/-- **C4.** `reassign_after_failure` keeps exactly the members whose status
(defaulting to `"ok"`) is not `"failed"` and no others, preserving the
relative order of the survivors, and prints exactly one warning line
reporting the number removed when that number is positive and nothing when
it is zero. -/
theorem C4_reassign_exact_removal (cluster : Cluster) :
    (∀ d, d ∈ (reassign_after_failure cluster).1.members ↔
      d ∈ cluster.members ∧ d.status.getD "ok" ≠ "failed") ∧
    List.Sublist (reassign_after_failure cluster).1.members
      cluster.members ∧
    (reassign_after_failure cluster).2 =
      (if (cluster.members.filter
            fun d => d.status.getD "ok" == "failed").length = 0 then
        ([] : List String)
      else
        [lost_members_warning cluster.id
          (cluster.members.filter
            fun d => d.status.getD "ok" == "failed").length]) := by
  have hlen := List.length_eq_length_filter_add (l := cluster.members)
    (fun d => d.status.getD "ok" == "failed")
  have hsurv : (cluster.members.filter
        fun d => !(d.status.getD "ok" == "failed")) =
      (cluster.members.filter fun d => d.status.getD "ok" != "failed") :=
    rfl
  rw [hsurv] at hlen
  refine ⟨?_, ?_, ?_⟩
  · intro d
    simp [reassign_after_failure, List.mem_filter]
  · exact List.filter_sublist _
  · simp only [reassign_after_failure]
    split <;> rename_i h
    · have h0 : (cluster.members.filter
          fun d => d.status.getD "ok" == "failed").length ≠ 0 := by omega
      have harith : cluster.members.length -
          (cluster.members.filter
            fun d => d.status.getD "ok" != "failed").length =
          (cluster.members.filter
            fun d => d.status.getD "ok" == "failed").length := by omega
      simp [h0, harith]
    · have h0 : (cluster.members.filter
          fun d => d.status.getD "ok" == "failed").length = 0 := by omega
      simp [h0]

/-- **C9.** `recommend_rotation_schedule` returns the same units, stably
sorted in ascending order of battery, a unit missing a battery value sorting
as if its battery were `100`: the result is a permutation of the input,
pairwise non-decreasing in the defaulted battery key, and units with equal
key keep their original relative order. -/
theorem C9_rotation_schedule (drones : List Drone) :
    List.Perm (recommend_rotation_schedule drones) drones ∧
    (recommend_rotation_schedule drones).Pairwise
      (fun a b => a.battery.getD 100 ≤ b.battery.getD 100) ∧
    ∀ q : ℚ, ((recommend_rotation_schedule drones).filter
        fun d => decide (d.battery.getD 100 = q)) =
      drones.filter fun d => decide (d.battery.getD 100 = q) := by
  have htrans : ∀ (a b c : Drone),
      (decide (a.battery.getD 100 ≤ b.battery.getD 100)) →
      (decide (b.battery.getD 100 ≤ c.battery.getD 100)) →
      (decide (a.battery.getD 100 ≤ c.battery.getD 100)) := by
    intro a b c h1 h2
    simp only [decide_eq_true_eq] at *
    exact h1.trans h2
  have htotal : ∀ (a b : Drone),
      (decide (a.battery.getD 100 ≤ b.battery.getD 100)) ||
      (decide (b.battery.getD 100 ≤ a.battery.getD 100)) := by
    intro a b
    rcases le_total (a.battery.getD 100) (b.battery.getD 100) with h | h <;>
      simp [h]
  refine ⟨List.mergeSort_perm drones _, ?_, ?_⟩
  · have hs := List.sorted_mergeSort htrans htotal drones
    exact hs.imp fun h => of_decide_eq_true h
  · intro q
    exact filter_mergeSort_of_tied _ drones _ htrans htotal
      (by
        intro a b ha hb
        simp only [decide_eq_true_eq] at *
        rw [ha, hb])


/-- **C5.** An untrained `AetherNetAI` answers `predict_next_focus` with
exactly the fixed fallback rule `CAPE > 1500` and `vorticity > 0.0005`
(missing features treated as `0`) and prints the fallback notice; a trained
one instead returns the model's class prediction on the vectorized feature
row, with no fallback notice. -/
theorem C5_predict_fallback {M : Type} (predict : M → List ℚ → Bool)
    (ai : AetherNetAI M) (current_scan : Entry) :
    (ai.is_trained = false →
      (AetherNetAI.predict_next_focus predict ai current_scan).1 =
        ((decide (1500 < current_scan.CAPE.getD 0)) &&
          (decide (1/2000 < current_scan.vorticity.getD 0))) ∧
      (AetherNetAI.predict_next_focus predict ai current_scan).2 =
        [fallback_notice]) ∧
    (ai.is_trained = true →
      (AetherNetAI.predict_next_focus predict ai current_scan).1 =
        predict ai.model (AetherNetAI._vectorize_scan current_scan) ∧
      (AetherNetAI.predict_next_focus predict ai current_scan).2 = []) := by
  constructor
  · intro h
    simp [AetherNetAI.predict_next_focus, h]
  · intro h
    simp [AetherNetAI.predict_next_focus, h]

/-- Witness for C5: an untrained instance on a reading with
`CAPE = 2000 > 1500` and `vorticity = 0.001 > 0.0005` answers `true` via
the fallback rule, and the same instance marked trained answers with the
supplied model. -/
theorem C5_predict_fallback_witness :
    ((AetherNetAI.predict_next_focus (fun _ _ => false)
        ({ model := (), is_trained := false } : AetherNetAI Unit)
        { CAPE := some 2000, vorticity := some (1/1000) }).1 =
      ((decide ((1500 : ℚ) < 2000)) && (decide ((1/2000 : ℚ) < 1/1000)))) ∧
    ((AetherNetAI.predict_next_focus (fun _ _ => false)
        ({ model := (), is_trained := true } : AetherNetAI Unit)
        { CAPE := some 2000, vorticity := some (1/1000) }).2 = []) :=
  ⟨((C5_predict_fallback (fun _ _ => false)
      { model := (), is_trained := false }
      { CAPE := some 2000, vorticity := some (1/1000) }).1 rfl).1,
    ((C5_predict_fallback (fun _ _ => false)
      { model := (), is_trained := true }
      { CAPE := some 2000, vorticity := some (1/1000) }).2 rfl).2⟩

/-- **C6.** `retrain_on_outcome` with `success = true` leaves the classifier
state (model and `is_trained` flag) completely untouched, while
`success = false` always yields exactly the state produced by `train` on the
dataset (and reports its log after the mismatch line). -/
theorem C6_retrain_frame {M : Type} (fit : List (List ℚ) → List ℤ → M)
    (ai : AetherNetAI M) (dataset : List Entry) :
    (AetherNetAI.retrain_on_outcome fit ai dataset true).1 = ai ∧
    (AetherNetAI.retrain_on_outcome fit ai dataset false).1 =
      (AetherNetAI.train fit ai dataset).1 ∧
    (AetherNetAI.retrain_on_outcome fit ai dataset false).2 =
      "[AI] Outcome mismatch (simulation): reinforcing edge-case patterns."
        :: (AetherNetAI.train fit ai dataset).2 := by
  refine ⟨rfl, rfl, rfl⟩

/-- **C7.** When the binary outcome labels of a dataset have fewer than two
distinct values, `train` emits the diversity warning and leaves the state
unchanged: the `is_trained` flag keeps its prior value and the prior model
is retained. -/
theorem C7_train_skip {M : Type} (fit : List (List ℚ) → List ℤ → M)
    (ai : AetherNetAI M) (dataset : List Entry)
    (h : (preprocess dataset).2.dedup.length < 2) :
    (AetherNetAI.train fit ai dataset).1 = ai ∧
    (AetherNetAI.train fit ai dataset).1.is_trained = ai.is_trained ∧
    (AetherNetAI.train fit ai dataset).1.model = ai.model ∧
    (AetherNetAI.train fit ai dataset).2 = [diversity_warning] := by
  have e : AetherNetAI.train fit ai dataset = (ai, [diversity_warning]) := by
    simp [AetherNetAI.train, h]
  rw [e]
  exact ⟨rfl, rfl, rfl, rfl⟩

/-- Witness for C7: a two-record dataset whose labels are both `0` (one of
them by default) leaves a previously-trained instance untouched. -/
theorem C7_train_skip_witness :
    (AetherNetAI.train (fun _ _ => false)
      ({ model := true, is_trained := true } : AetherNetAI Bool)
      [{ CAPE := some 1, storm_formed := some 0 }, { CAPE := some 2 }]).1 =
      { model := true, is_trained := true } :=
  (C7_train_skip (fun _ _ => false)
    { model := true, is_trained := true }
    [{ CAPE := some 1, storm_formed := some 0 }, { CAPE := some 2 }]
    (by decide)).1

/-- **C8.** The 12-component feature row built at inference time by
`_vectorize_scan` coincides, for every record, with the feature row built
for that record at training time by `preprocess`: same five sensor features
(defaulting to `0.0`) in the same order, followed by the same seven angle
features from `_extract_angle_features`. -/
theorem C8_vectorize_matches_preprocess (dataset : List Entry) :
    (∀ entry : Entry,
      AetherNetAI._vectorize_scan entry = preprocess_row entry) ∧
    (preprocess dataset).1 =
      dataset.map AetherNetAI._vectorize_scan := by
  refine ⟨fun entry => rfl, ?_⟩
  simp only [preprocess]
  exact List.map_congr_left fun entry _ => rfl

/-- **C10.** `suggest_geometry` returns the `mode` argument verbatim in the
`alignment_mode` field of its result for every mode string — an
unrecognized mode is echoed unchanged rather than coerced to `"crosswind"`
or `"none"` — even though for every mode other than `"upwind"` and
`"downwind"` (so in particular every unrecognized one) the desired heading
is computed exactly as in crosswind mode. -/
theorem C10_alignment_mode_echo (sensor_data : SensorData) (mode : String)
    (default_yaw_deg bank_deg aoa_deg : ℚ) :
    (suggest_geometry sensor_data mode default_yaw_deg bank_deg
      aoa_deg).alignment_mode = mode ∧
    (mode ≠ "upwind" → mode ≠ "downwind" →
      (suggest_geometry sensor_data mode default_yaw_deg bank_deg
        aoa_deg).desired_heading_deg =
      (suggest_geometry sensor_data "crosswind" default_yaw_deg bank_deg
        aoa_deg).desired_heading_deg) := by
  have hcu : ("crosswind" : String) ≠ "upwind" := by decide
  have hcd : ("crosswind" : String) ≠ "downwind" := by decide
  refine ⟨rfl, fun h1 h2 => ?_⟩
  simp [suggest_geometry, heading_from_wind_dir, h1, h2, hcu, hcd]

/-- Witness for C10: the unrecognized mode `"zigzag"` is echoed unchanged
and yields the crosswind heading for a wind-from direction of 200°. -/
theorem C10_alignment_mode_echo_witness :
    (suggest_geometry { wind_direction := some 200 } "zigzag" 10 5
      2).alignment_mode = "zigzag" ∧
    (suggest_geometry { wind_direction := some 200 } "zigzag" 10 5
      2).desired_heading_deg =
    (suggest_geometry { wind_direction := some 200 } "crosswind" 10 5
      2).desired_heading_deg :=
  ⟨(C10_alignment_mode_echo { wind_direction := some 200 } "zigzag"
      10 5 2).1,
    (C10_alignment_mode_echo { wind_direction := some 200 } "zigzag"
      10 5 2).2 (by decide) (by decide)⟩

end AetherNet
